import Mathlib

/-!
Shallow embedding of the `example-tx-raw` demonstration program (main.go).

The program bulk-loads rows into a PostgreSQL table in three scenarios
(no transaction, transaction + commit, transaction + rollback), using the
official `sql.Conn.Raw` in the first scenario and a reflection-based
`Tx.Raw` workaround in the other two.

Modelling choices:
- A row is the ordered pair (name, data) of strings, as produced by
  `generateSampleData` (main.go:324-333).
- The reflective view of `sql.Tx` is a structure whose `dc` field may be
  absent (reflection lookup fails) and whose nested `driverConn` value has
  a `ci` field that may likewise be absent (main.go:47-72).
- The driver connection handed to a callback either is pgx's
  `*stdlib.Conn` or is some other value, identified by its Go type name
  (the `%T` in the error of main.go:279).
- The external database is modelled as the list of committed rows, with
  standard transactional semantics: a copy inside an open transaction
  becomes visible only on commit and is discarded on rollback.
- Fallible external steps (clear, connection/transaction acquisition, the
  underlying bulk transfer, commit, rollback, count) are resolved by an
  environment record supplying each step's error, `none` meaning success.
- Side effects are captured in a trace of events: log messages (purely
  decorative banner lines containing characters outside the fragment we
  transcribe are elided), issued bulk-copy requests, and commit/rollback
  invocations. `log.Fatalf` is the `fatalExit` outcome (process exits with
  a non-zero status); a plain function return is the `returned` outcome.
-/

set_option autoImplicit false

namespace TxRaw

/-- Destination table name (main.go:21). -/
def tableName : String := "items"

/-- A row tuple: (name, data), as generated by `generateSampleData`. -/
abbrev Row := String × String

/-- The raw driver connection handed to a callback: either pgx's
`*stdlib.Conn` or a value of some other Go type, carried by name. -/
inductive DriverConn where
  | stdlibConn
  | otherConn (typeName : String)
  deriving DecidableEq

/-- Reflective view of the internal `driverConn` struct of database/sql:
its `ci` field (the `driver.Conn`), or `none` when the field lookup fails
(main.go:62-65). -/
structure DriverConnRec where
  ci : Option DriverConn
  deriving DecidableEq

/-- Reflective view of `sql.Tx` as used by the extractor: its `dc` field
(the `*driverConn`), or `none` when the field lookup fails
(main.go:51-54). -/
structure Tx where
  dc : Option DriverConnRec
  deriving DecidableEq

/-- A bulk-copy request as issued to `pgxConn.CopyFrom`
(main.go:287-292): table identifier, column list, row data. -/
structure CopyRequest where
  table : List String
  columns : List String
  rows : List Row
  deriving DecidableEq

/-- Observable events of a run. -/
inductive Event where
  | logMsg (msg : String)
  | copyReq (req : CopyRequest)
  | commitInvoked (result : Option String)
  | rollbackInvoked (result : Option String)
  deriving DecidableEq

/-- Outcome of a scenario or of the whole run: `fatalExit` is
`log.Fatalf` (process terminates, non-zero status), `returned` is a
normal function return. -/
inductive Outcome where
  | fatalExit (msg : String)
  | returned
  deriving DecidableEq

/-- The external database: the committed rows of the `items` table. -/
structure DBState where
  rows : List Row
  deriving DecidableEq

/-- `Tx.Raw` (main.go:47-72): locate the `dc` field of the transaction,
then the `ci` field of the `driverConn` it points to, and invoke the
callback with the extracted driver connection. The callback returns its
emitted events next to its error, mirroring that the Go callback both
logs and returns an `error`. -/
def Tx.Raw (tx : Tx) (f : DriverConn → List Event × Option String) :
    List Event × Option String :=
  match tx.dc with
  | none => ([], some "cannot access dc field from transaction")
  | some dc =>
    match dc.ci with
    | none => ([], some "cannot access ci field from `driverConn`")
    | some ci => f ci

/-- `generateSampleData` (main.go:324-333): `numRows` rows, the i-th
(0-based i) being ("<pfx> Name <i+1>", "<pfx> Data <i+1>"). -/
def generateSampleData (numRows : Nat) (pfx : String) : List Row :=
  (List.range numRows).map fun i =>
    (pfx ++ " Name " ++ toString (i + 1), pfx ++ " Data " ++ toString (i + 1))

/-- `performCopyFrom` (main.go:275-299): cast the driver connection to
`*stdlib.Conn` (type-mismatch error on failure), then run
`pgxConn.CopyFrom` on the `name` and `data` columns of the table;
`copyErr` is the underlying transfer failure, if any, supplied by the
environment. Returns the emitted events and the error result. -/
def performCopyFrom (driverConn : DriverConn) (data : List Row)
    (scen : String) (copyErr : Option String) : List Event × Option String :=
  match driverConn with
  | .otherConn t => ([], some ("driverConn is not *stdlib.Conn, got " ++ t))
  | .stdlibConn =>
    let req : CopyRequest := ⟨[tableName], ["name", "data"], data⟩
    match copyErr with
    | some e => ([.copyReq req], some ("pgxConn.CopyFrom failed: " ++ e))
    | none =>
      ([.copyReq req,
        .logMsg ("✓ Successfully inserted " ++ toString data.length
          ++ " rows using CopyFrom (" ++ scen ++ ")")], none)

/-- `countRows` (main.go:337-346): the number of rows of the table as
seen through the non-transactional handle, or a query error supplied by
the environment. -/
def countRows (db : DBState) (countErr : Option String) : Except String Nat :=
  match countErr with
  | some e => .error ("QueryRowContext for COUNT failed: " ++ e)
  | none => .ok db.rows.length

/-- Environment resolving a single scenario's fallible external steps and
the value the raw-access path yields. `none` means the step succeeds. -/
structure ScenEnv where
  /-- error of `clearTable` (the DELETE), if any -/
  clearErr : Option String
  /-- error of `db.Conn` (scenario 1) or `db.BeginTx` (scenarios 2, 3) -/
  acquireErr : Option String
  /-- driver connection yielded by the official `sql.Conn.Raw` (scenario 1) -/
  conn : DriverConn
  /-- reflective layout of the `sql.Tx` handle (scenarios 2, 3) -/
  txRepr : Tx
  /-- underlying failure of `pgxConn.CopyFrom`, if any -/
  copyErr : Option String
  /-- error of `sqlTx.Commit`, if any -/
  commitErr : Option String
  /-- error of `sqlTx.Rollback`, if any -/
  rollbackErr : Option String
  /-- error of the COUNT query, if any -/
  countErr : Option String
  deriving DecidableEq

/-- Result of a scenario: database state afterwards, emitted events, and
whether the scenario returned or killed the process. -/
structure ScenResult where
  db : DBState
  events : List Event
  outcome : Outcome
  deriving DecidableEq

/-- Verification tail of scenario 1 (main.go:142-145): log the result,
and log an extra error line exactly when the count mismatches. -/
def verifyNoTx (rowCount expected : Nat) : List Event :=
  [.logMsg ("✓ Result: " ++ toString rowCount ++ " rows inserted (Expected: "
    ++ toString expected ++ ")")]
  ++ if rowCount ≠ expected then
      [.logMsg "✗ ERROR: Row count mismatch for non-transactional CopyFrom!"]
    else []

/-- Verification tail of scenario 2 (main.go:202-205). -/
def verifyTxCommit (rowCount expected : Nat) : List Event :=
  [.logMsg ("✓ Result: " ++ toString rowCount
    ++ " rows persisted after commit (Expected: " ++ toString expected ++ ")")]
  ++ if rowCount ≠ expected then
      [.logMsg "✗ ERROR: Row count mismatch for transactional CopyFrom!"]
    else []

/-- Verification tail of scenario 3 (main.go:261-266): expected count is
the literal 0. -/
def verifyTxRollback (rowCount : Nat) : List Event :=
  [.logMsg ("✓ Result: " ++ toString rowCount
    ++ " rows persisted after rollback (Expected: 0)")]
  ++ if rowCount ≠ 0 then
      [.logMsg "✗ ERROR: Data was persisted despite rollback!"]
    else [.logMsg "✓ Rollback worked correctly - no data persisted"]

/-- Scenario 1, `demonstrateNoTransactionCopyFrom` (main.go:109-147):
clear the table, generate 10 rows labeled "NoTx", copy them through the
official `sql.Conn.Raw`, count, verify. Every error is `log.Fatalf`. -/
def demonstrateNoTransactionCopyFrom (env : ScenEnv) (db : DBState) :
    ScenResult :=
  let ev0 : List Event :=
    [.logMsg "--- Scenario 1: CopyFrom WITHOUT transaction ---",
     .logMsg "Uses sql.Conn.Raw() - the official, safe way to access driver connection"]
  match env.clearErr with
  | some e => ⟨db, ev0, .fatalExit ("Failed to clear table: " ++ e)⟩
  | none =>
    let db1 : DBState := ⟨[]⟩
    let sampleData := generateSampleData 10 "NoTx"
    let ev1 := ev0 ++
      [.logMsg ("✓ Table " ++ tableName ++ " cleared"),
       .logMsg ("Generated " ++ toString sampleData.length
         ++ " rows for non-transactional insertion")]
    match env.acquireErr with
    | some e => ⟨db1, ev1, .fatalExit ("db.Conn failed: " ++ e)⟩
    | none =>
      let cp := performCopyFrom env.conn sampleData "non-transactional" env.copyErr
      let ev2 := ev1 ++ cp.1
      match cp.2 with
      | some e => ⟨db1, ev2, .fatalExit ("sqlDBConn.Raw failed: " ++ e)⟩
      | none =>
        let db2 : DBState := ⟨db1.rows ++ sampleData⟩
        match countRows db2 env.countErr with
        | .error e => ⟨db2, ev2, .fatalExit ("Failed to count rows (no-tx): " ++ e)⟩
        | .ok n => ⟨db2, ev2 ++ verifyNoTx n sampleData.length, .returned⟩

/-- Scenario 2, `demonstrateTransactionCommitCopyFrom` (main.go:155-207):
clear the table, generate 15 rows labeled "TxCommit", copy them inside a
transaction through the reflective `Tx.Raw`, commit, count, verify. A
copy error is logged, the transaction rolled back best-effort, and the
scenario returns (main.go:182-188); other errors are `log.Fatalf`. -/
def demonstrateTransactionCommitCopyFrom (env : ScenEnv) (db : DBState) :
    ScenResult :=
  let ev0 : List Event :=
    [.logMsg "--- Scenario 2: CopyFrom WITH transaction (COMMIT) ---",
     .logMsg "Uses reflection-based Tx.Raw() - demonstrates the current workaround"]
  match env.clearErr with
  | some e => ⟨db, ev0, .fatalExit ("Failed to clear table: " ++ e)⟩
  | none =>
    let db1 : DBState := ⟨[]⟩
    let sampleData := generateSampleData 15 "TxCommit"
    let ev1 := ev0 ++
      [.logMsg ("✓ Table " ++ tableName ++ " cleared"),
       .logMsg ("Generated " ++ toString sampleData.length
         ++ " rows for transactional insertion (commit)")]
    match env.acquireErr with
    | some e => ⟨db1, ev1, .fatalExit ("Failed to begin transaction (commit scenario): " ++ e)⟩
    | none =>
      let cp := Tx.Raw env.txRepr fun dconn =>
        performCopyFrom dconn sampleData "transactional (commit)" env.copyErr
      let ev2 := ev1 ++ cp.1
      match cp.2 with
      | some e =>
        let ev3 := ev2 ++
          [.logMsg ("✗ CopyFrom failed, rolling back: " ++ e),
           .rollbackInvoked env.rollbackErr] ++
          match env.rollbackErr with
          | some re => [.logMsg ("✗ Rollback also failed: " ++ re)]
          | none => []
        ⟨db1, ev3, .returned⟩
      | none =>
        match env.commitErr with
        | some e =>
          ⟨db1, ev2 ++ [.commitInvoked (some e)],
           .fatalExit ("Failed to commit transaction: " ++ e)⟩
        | none =>
          let db2 : DBState := ⟨db1.rows ++ sampleData⟩
          let ev3 := ev2 ++
            [.commitInvoked none, .logMsg "✓ Transaction committed successfully"]
          match countRows db2 env.countErr with
          | .error e => ⟨db2, ev3, .fatalExit ("Failed to count rows (tx-commit): " ++ e)⟩
          | .ok n => ⟨db2, ev3 ++ verifyTxCommit n sampleData.length, .returned⟩

/-- Scenario 3, `demonstrateTransactionRollbackCopyFrom`
(main.go:214-268): clear the table, generate 20 rows labeled
"TxRollback", copy them inside a transaction through the reflective
`Tx.Raw`, roll the transaction back, count, verify. A copy error is
logged, the transaction rolled back best-effort, and the scenario
returns (main.go:241-247); other errors are `log.Fatalf`. -/
def demonstrateTransactionRollbackCopyFrom (env : ScenEnv) (db : DBState) :
    ScenResult :=
  let ev0 : List Event :=
    [.logMsg "--- Scenario 3: CopyFrom WITH transaction (ROLLBACK) ---",
     .logMsg "Uses reflection-based Tx.Raw() - demonstrates transaction rollback"]
  match env.clearErr with
  | some e => ⟨db, ev0, .fatalExit ("Failed to clear table: " ++ e)⟩
  | none =>
    let db1 : DBState := ⟨[]⟩
    let sampleData := generateSampleData 20 "TxRollback"
    let ev1 := ev0 ++
      [.logMsg ("✓ Table " ++ tableName ++ " cleared"),
       .logMsg ("Generated " ++ toString sampleData.length
         ++ " rows for transactional insertion (rollback)")]
    match env.acquireErr with
    | some e => ⟨db1, ev1, .fatalExit ("Failed to begin transaction (rollback scenario): " ++ e)⟩
    | none =>
      let cp := Tx.Raw env.txRepr fun dconn =>
        performCopyFrom dconn sampleData "transactional (rollback)" env.copyErr
      let ev2 := ev1 ++ cp.1
      match cp.2 with
      | some e =>
        let ev3 := ev2 ++
          [.logMsg ("✗ CopyFrom failed: " ++ e),
           .rollbackInvoked env.rollbackErr] ++
          match env.rollbackErr with
          | some re => [.logMsg ("✗ Rollback also failed: " ++ re)]
          | none => []
        ⟨db1, ev3, .returned⟩
      | none =>
        match env.rollbackErr with
        | some e =>
          ⟨db1, ev2 ++ [.rollbackInvoked (some e)],
           .fatalExit ("Failed to rollback transaction: " ++ e)⟩
        | none =>
          let ev3 := ev2 ++
            [.rollbackInvoked none, .logMsg "✓ Transaction rolled back successfully"]
          match countRows db1 env.countErr with
          | .error e => ⟨db1, ev3, .fatalExit ("Failed to count rows (tx-rollback): " ++ e)⟩
          | .ok n => ⟨db1, ev3 ++ verifyTxRollback n, .returned⟩

/-- Environment of a whole run: the connect step and one scenario
environment per scenario. -/
structure RunEnv where
  connectErr : Option String
  env1 : ScenEnv
  env2 : ScenEnv
  env3 : ScenEnv
  deriving DecidableEq

/-- Result of a whole run. -/
structure RunResult where
  db : DBState
  events : List Event
  outcome : Outcome
  deriving DecidableEq

/-- `main` (main.go:74-102): connect (fatal on failure), then run the
three scenarios in order, each starting from the database state the
previous one left; a scenario that calls `log.Fatalf` terminates the
whole run, a scenario that returns hands over to the next. -/
def main (env : RunEnv) (db0 : DBState) : RunResult :=
  let ev0 : List Event := [.logMsg "=== Go sql.Tx Raw Connection Access Example ==="]
  match env.connectErr with
  | some e => ⟨db0, ev0, .fatalExit ("Failed to connect to database: " ++ e)⟩
  | none =>
    let ev1 := ev0 ++ [.logMsg "✓ Successfully connected to PostgreSQL"]
    let r1 := demonstrateNoTransactionCopyFrom env.env1 db0
    match r1.outcome with
    | .fatalExit m => ⟨r1.db, ev1 ++ r1.events, .fatalExit m⟩
    | .returned =>
      let r2 := demonstrateTransactionCommitCopyFrom env.env2 r1.db
      match r2.outcome with
      | .fatalExit m => ⟨r2.db, ev1 ++ r1.events ++ r2.events, .fatalExit m⟩
      | .returned =>
        let r3 := demonstrateTransactionRollbackCopyFrom env.env3 r2.db
        match r3.outcome with
        | .fatalExit m => ⟨r3.db, ev1 ++ r1.events ++ r2.events ++ r3.events, .fatalExit m⟩
        | .returned =>
          ⟨r3.db, ev1 ++ r1.events ++ r2.events ++ r3.events
            ++ [.logMsg "=== Example Finished ==="], .returned⟩

/-- A fully nominal scenario environment: every external step succeeds,
the raw-access paths yield pgx's `*stdlib.Conn`, and the reflective
layout of `sql.Tx` is the expected one. -/
def nominalEnv : ScenEnv :=
  ⟨none, none, .stdlibConn, ⟨some ⟨some .stdlibConn⟩⟩, none, none, none, none⟩

/-- A fully nominal run environment. -/
def nominalRun : RunEnv := ⟨none, nominalEnv, nominalEnv, nominalEnv⟩

/-! ### Claim theorems -/

/-- Claim C2: for every transaction handle whose reflective layout lacks
the expected private fields, `Tx.Raw` returns the corresponding
inaccessible-internal-field error — "cannot access dc field from
transaction" when the `dc` lookup fails, "cannot access ci field from
`driverConn`" when the `ci` lookup fails — and does not invoke the
supplied callback: the result neither contains any callback event nor
depends on the callback at all. -/
theorem txRaw_missing_field_error (tx : Tx)
    (f g : DriverConn → List Event × Option String) :
    (tx.dc = none →
      Tx.Raw tx f = ([], some "cannot access dc field from transaction")) ∧
    (∀ dc, tx.dc = some dc → dc.ci = none →
      Tx.Raw tx f = ([], some "cannot access ci field from `driverConn`")) ∧
    ((tx.dc = none ∨ ∃ dc, tx.dc = some dc ∧ dc.ci = none) →
      Tx.Raw tx f = Tx.Raw tx g) := by
  obtain ⟨dc⟩ := tx
  match dc with
  | none => simp [Tx.Raw]
  | some ⟨none⟩ => simp [Tx.Raw]
  | some ⟨some ci⟩ => simp [Tx.Raw]

/-- Witness for C2 at concrete layouts: both field-lookup failures, with
two callbacks that disagree everywhere, still yield the fixed errors. -/
theorem txRaw_missing_field_error_witness :
    (Tx.mk none).dc = none ∧
    Tx.Raw ⟨none⟩ (fun _ => ([], some "cb")) =
      ([], some "cannot access dc field from transaction") ∧
    Tx.Raw ⟨some ⟨none⟩⟩ (fun _ => ([], some "cb")) =
      ([], some "cannot access ci field from `driverConn`") ∧
    Tx.Raw ⟨none⟩ (fun _ => ([], some "cb")) =
      Tx.Raw ⟨none⟩ (fun _ => ([], none)) := by
  refine ⟨rfl, ?_, ?_, ?_⟩
  · exact (txRaw_missing_field_error ⟨none⟩ (fun _ => ([], some "cb"))
      (fun _ => ([], none))).1 rfl
  · exact (txRaw_missing_field_error ⟨some ⟨none⟩⟩ (fun _ => ([], some "cb"))
      (fun _ => ([], none))).2.1 ⟨none⟩ rfl rfl
  · exact (txRaw_missing_field_error ⟨none⟩ (fun _ => ([], some "cb"))
      (fun _ => ([], none))).2.2 (Or.inl rfl)

/-- Claim C3: when both private fields are located — the `dc` field of
the handle and the `ci` field of the nested `driverConn` — `Tx.Raw`
equals one application of the callback to the extracted driver
connection: the callback is invoked exactly once with that argument and
its value (events and error, nil or not) is returned unchanged. -/
theorem txRaw_callback_passthrough (tx : Tx) (dc : DriverConnRec)
    (ci : DriverConn) (f : DriverConn → List Event × Option String)
    (h1 : tx.dc = some dc) (h2 : dc.ci = some ci) :
    Tx.Raw tx f = f ci := by
  simp [Tx.Raw, h1, h2]

/-- Witness for C3 at a concrete layout and callback. -/
theorem txRaw_callback_passthrough_witness :
    Tx.Raw ⟨some ⟨some .stdlibConn⟩⟩
        (fun d => ([.logMsg "cb"], if d = .stdlibConn then none else some "e")) =
      ([.logMsg "cb"], none) :=
  txRaw_callback_passthrough ⟨some ⟨some .stdlibConn⟩⟩ ⟨some .stdlibConn⟩
    .stdlibConn _ rfl rfl

/-- Claim C4: `performCopyFrom` returns the type-mismatch error
"driverConn is not *stdlib.Conn, got <T>" exactly when the raw
connection is not a `*stdlib.Conn`; returns the wrapped error
"pgxConn.CopyFrom failed: <cause>" exactly when the connection is right
but the bulk transfer itself errors; and returns nil exactly
otherwise. -/
theorem performCopyFrom_error_cases (dconn : DriverConn) (data : List Row)
    (scen : String) (copyErr : Option String) :
    ((∃ t, dconn = .otherConn t ∧
        (performCopyFrom dconn data scen copyErr).2 =
          some ("driverConn is not *stdlib.Conn, got " ++ t)) ↔
      dconn ≠ .stdlibConn) ∧
    ((∃ e, copyErr = some e ∧ dconn = .stdlibConn ∧
        (performCopyFrom dconn data scen copyErr).2 =
          some ("pgxConn.CopyFrom failed: " ++ e)) ↔
      (dconn = .stdlibConn ∧ copyErr ≠ none)) ∧
    ((performCopyFrom dconn data scen copyErr).2 = none ↔
      (dconn = .stdlibConn ∧ copyErr = none)) := by
  match dconn, copyErr with
  | .stdlibConn, none => simp [performCopyFrom]
  | .stdlibConn, some e => simp [performCopyFrom]
  | .otherConn t, none => simp [performCopyFrom]
  | .otherConn t, some e => simp [performCopyFrom]

/-- Claim C9: `generateSampleData n p` returns exactly `n` rows, and the
row at 0-based position `i` (1-based position `i + 1`) is the ordered
pair ("<p> Name <i+1>", "<p> Data <i+1>"). -/
theorem generateSampleData_rows (n : Nat) (p : String) :
    (generateSampleData n p).length = n ∧
    ∀ i (h : i < (generateSampleData n p).length),
      (generateSampleData n p).get ⟨i, h⟩ =
        (p ++ " Name " ++ toString (i + 1), p ++ " Data " ++ toString (i + 1)) := by
  refine ⟨by simp [generateSampleData], ?_⟩
  intro i h
  simp [generateSampleData]

/-- Witness for C9: three rows for prefix "NoTx", second row spelt out. -/
theorem generateSampleData_rows_witness :
    (generateSampleData 3 "NoTx").length = 3 ∧
    (generateSampleData 3 "NoTx").get ⟨1, by decide⟩ =
      ("NoTx Name 2", "NoTx Data 2") := by
  refine ⟨(generateSampleData_rows 3 "NoTx").1, ?_⟩
  have h := (generateSampleData_rows 3 "NoTx").2 1 (by decide)
  simpa using h

/-- Claim C6: in the rollback scenario, when the batch is bulk-copied
successfully inside the open transaction (table cleared, transaction
begun, expected reflective layout, `*stdlib.Conn` connection, transfer
succeeds) and the explicit rollback then succeeds, the persisted state
holds no rows: the observed count is 0, the scenario logs it, and no
partial visibility of the copied rows remains. -/
theorem rollback_no_partial_visibility (env : ScenEnv) (db : DBState)
    (hclear : env.clearErr = none) (hacq : env.acquireErr = none)
    (htx : env.txRepr = ⟨some ⟨some .stdlibConn⟩⟩)
    (hcopy : env.copyErr = none) (hrb : env.rollbackErr = none)
    (hcnt : env.countErr = none) :
    (demonstrateTransactionRollbackCopyFrom env db).db.rows = [] ∧
    countRows (demonstrateTransactionRollbackCopyFrom env db).db none = .ok 0 ∧
    Event.logMsg "✓ Result: 0 rows persisted after rollback (Expected: 0)"
      ∈ (demonstrateTransactionRollbackCopyFrom env db).events ∧
    (demonstrateTransactionRollbackCopyFrom env db).outcome = .returned := by
  obtain ⟨ce, ae, conn, txr, cpe, cme, rbe, cnte⟩ := env
  simp only at hclear hacq htx hcopy hrb hcnt
  subst hclear hacq htx hcopy hrb hcnt
  simp only [demonstrateTransactionRollbackCopyFrom, Tx.Raw, performCopyFrom,
    countRows, verifyTxRollback]
  refine ⟨?_, ?_, ?_, ?_⟩ <;> trivial

/-- Witness for C6: nominal environment, starting from a non-empty
table. -/
theorem rollback_no_partial_visibility_witness :
    (demonstrateTransactionRollbackCopyFrom nominalEnv ⟨[("a", "b")]⟩).db.rows = [] ∧
    countRows (demonstrateTransactionRollbackCopyFrom nominalEnv ⟨[("a", "b")]⟩).db none = .ok 0 ∧
    Event.logMsg "✓ Result: 0 rows persisted after rollback (Expected: 0)"
      ∈ (demonstrateTransactionRollbackCopyFrom nominalEnv ⟨[("a", "b")]⟩).events ∧
    (demonstrateTransactionRollbackCopyFrom nominalEnv ⟨[("a", "b")]⟩).outcome = .returned :=
  rollback_no_partial_visibility nominalEnv ⟨[("a", "b")]⟩ rfl rfl rfl rfl rfl rfl

/-- Claim C7: in each transactional scenario, whenever the reflective
raw-access step errors — extractor field-lookup failure, type mismatch
on the raw connection, or bulk-copy failure, i.e. whenever `Tx.Raw`
returns a non-nil error — the error is logged ("✗ CopyFrom failed,
rolling back: <e>" in the commit scenario, "✗ CopyFrom failed: <e>" in
the rollback scenario), `Rollback` is invoked on the transaction, a
failing rollback is itself only logged, and the scenario then returns
(aborts without killing the process) regardless of the rollback
result. -/
theorem tx_error_logged_and_rolled_back (env : ScenEnv) (db : DBState)
    (e : String) (hclear : env.clearErr = none) (hacq : env.acquireErr = none) :
    ((Tx.Raw env.txRepr fun d =>
        performCopyFrom d (generateSampleData 15 "TxCommit")
          "transactional (commit)" env.copyErr).2 = some e →
      Event.logMsg ("✗ CopyFrom failed, rolling back: " ++ e)
        ∈ (demonstrateTransactionCommitCopyFrom env db).events ∧
      Event.rollbackInvoked env.rollbackErr
        ∈ (demonstrateTransactionCommitCopyFrom env db).events ∧
      (∀ re, env.rollbackErr = some re →
        Event.logMsg ("✗ Rollback also failed: " ++ re)
          ∈ (demonstrateTransactionCommitCopyFrom env db).events) ∧
      (demonstrateTransactionCommitCopyFrom env db).outcome = .returned) ∧
    ((Tx.Raw env.txRepr fun d =>
        performCopyFrom d (generateSampleData 20 "TxRollback")
          "transactional (rollback)" env.copyErr).2 = some e →
      Event.logMsg ("✗ CopyFrom failed: " ++ e)
        ∈ (demonstrateTransactionRollbackCopyFrom env db).events ∧
      Event.rollbackInvoked env.rollbackErr
        ∈ (demonstrateTransactionRollbackCopyFrom env db).events ∧
      (∀ re, env.rollbackErr = some re →
        Event.logMsg ("✗ Rollback also failed: " ++ re)
          ∈ (demonstrateTransactionRollbackCopyFrom env db).events) ∧
      (demonstrateTransactionRollbackCopyFrom env db).outcome = .returned) := by
  obtain ⟨ce, ae, conn, txr, cpe, cme, rbe, cnte⟩ := env
  simp only at hclear hacq
  subst hclear hacq
  constructor
  · intro herr
    simp only [demonstrateTransactionCommitCopyFrom, herr]
    cases rbe <;> simp
  · intro herr
    simp only [demonstrateTransactionRollbackCopyFrom, herr]
    cases rbe <;> simp

/-- Witness for C7: a failing bulk transfer inside the commit scenario
with a failing rollback, and the same failure inside the rollback
scenario with a succeeding rollback. -/
theorem tx_error_logged_and_rolled_back_witness :
    (Event.logMsg "✗ CopyFrom failed, rolling back: pgxConn.CopyFrom failed: boom"
      ∈ (demonstrateTransactionCommitCopyFrom
          { nominalEnv with copyErr := some "boom", rollbackErr := some "rb" }
          ⟨[]⟩).events ∧
     Event.logMsg "✗ Rollback also failed: rb"
      ∈ (demonstrateTransactionCommitCopyFrom
          { nominalEnv with copyErr := some "boom", rollbackErr := some "rb" }
          ⟨[]⟩).events ∧
     (demonstrateTransactionCommitCopyFrom
        { nominalEnv with copyErr := some "boom", rollbackErr := some "rb" }
        ⟨[]⟩).outcome = .returned) ∧
    (Event.logMsg "✗ CopyFrom failed: pgxConn.CopyFrom failed: boom"
      ∈ (demonstrateTransactionRollbackCopyFrom
          { nominalEnv with copyErr := some "boom" } ⟨[]⟩).events ∧
     (demonstrateTransactionRollbackCopyFrom
        { nominalEnv with copyErr := some "boom" } ⟨[]⟩).outcome = .returned) := by
  have h1 := (tx_error_logged_and_rolled_back
    { nominalEnv with copyErr := some "boom", rollbackErr := some "rb" }
    ⟨[]⟩ "pgxConn.CopyFrom failed: boom" rfl rfl).1 (by rfl)
  have h2 := (tx_error_logged_and_rolled_back
    { nominalEnv with copyErr := some "boom" }
    ⟨[]⟩ "pgxConn.CopyFrom failed: boom" rfl rfl).2 (by rfl)
  exact ⟨⟨h1.1, h1.2.2.1 "rb" rfl, h1.2.2.2⟩, h2.1, h2.2.2.2⟩

/-- Claim C5: the end-to-end run bulk-copies exactly the batches
`generateSampleData 10 "NoTx"`, `generateSampleData 15 "TxCommit"` and
`generateSampleData 20 "TxRollback"`, in that order; those batches hold
exactly 10, 15 and 20 rows, every row of each carrying its scenario
label; and the logged expectations are a persisted count of 10 for the
no-transaction scenario, 15 for the commit scenario, and 0 for the
rollback scenario. -/
theorem endToEnd_generation_counts :
    ((main nominalRun ⟨[]⟩).events.filterMap fun e =>
        match e with | .copyReq r => some r.rows | _ => none) =
      [generateSampleData 10 "NoTx", generateSampleData 15 "TxCommit",
       generateSampleData 20 "TxRollback"] ∧
    (generateSampleData 10 "NoTx").length = 10 ∧
    (generateSampleData 15 "TxCommit").length = 15 ∧
    (generateSampleData 20 "TxRollback").length = 20 ∧
    ((generateSampleData 10 "NoTx").all fun r =>
      "NoTx".data.isPrefixOf r.1.data && "NoTx".data.isPrefixOf r.2.data) = true ∧
    ((generateSampleData 15 "TxCommit").all fun r =>
      "TxCommit".data.isPrefixOf r.1.data && "TxCommit".data.isPrefixOf r.2.data) = true ∧
    ((generateSampleData 20 "TxRollback").all fun r =>
      "TxRollback".data.isPrefixOf r.1.data && "TxRollback".data.isPrefixOf r.2.data) = true ∧
    Event.logMsg "✓ Result: 10 rows inserted (Expected: 10)"
      ∈ (main nominalRun ⟨[]⟩).events ∧
    Event.logMsg "✓ Result: 15 rows persisted after commit (Expected: 15)"
      ∈ (main nominalRun ⟨[]⟩).events ∧
    Event.logMsg "✓ Result: 0 rows persisted after rollback (Expected: 0)"
      ∈ (main nominalRun ⟨[]⟩).events := by
  decide

/-- Helper: any copy request `performCopyFrom` issues targets the `name`
and `data` columns, in that order, of the `items` table. -/
theorem performCopyFrom_columns (c : DriverConn) (d : List Row) (s : String)
    (ce : Option String) (req : CopyRequest)
    (h : Event.copyReq req ∈ (performCopyFrom c d s ce).1) :
    req.columns = ["name", "data"] ∧ req.table = [tableName] := by
  match c, ce with
  | .otherConn t, _ => simp [performCopyFrom] at h
  | .stdlibConn, none => simp_all [performCopyFrom]
  | .stdlibConn, some e => simp_all [performCopyFrom]

/-- Helper: a copy request in the output of `Tx.Raw` comes from the
callback at some extracted connection. -/
theorem txRaw_copyReq (tx : Tx) (f : DriverConn → List Event × Option String)
    (req : CopyRequest) (h : Event.copyReq req ∈ (Tx.Raw tx f).1) :
    ∃ ci, Event.copyReq req ∈ (f ci).1 := by
  obtain ⟨dc⟩ := tx
  match dc with
  | none => simp [Tx.Raw] at h
  | some ⟨none⟩ => simp [Tx.Raw] at h
  | some ⟨some ci⟩ => exact ⟨ci, h⟩

/-- Helper: scenario 1 only issues copy requests on the `name` and
`data` columns. -/
theorem scenario1_copy_columns (env : ScenEnv) (db : DBState)
    (req : CopyRequest)
    (h : Event.copyReq req ∈ (demonstrateNoTransactionCopyFrom env db).events) :
    req.columns = ["name", "data"] ∧ req.table = [tableName] := by
  obtain ⟨ce, ae, conn, txr, cpe, cme, rbe, cnte⟩ := env
  cases ce <;> cases ae <;> cases conn <;> cases cpe <;> cases cnte <;>
    simp_all [demonstrateNoTransactionCopyFrom, performCopyFrom, countRows,
      verifyNoTx]

/-- Helper: scenario 2 only issues copy requests on the `name` and
`data` columns. -/
theorem scenario2_copy_columns (env : ScenEnv) (db : DBState)
    (req : CopyRequest)
    (h : Event.copyReq req ∈ (demonstrateTransactionCommitCopyFrom env db).events) :
    req.columns = ["name", "data"] ∧ req.table = [tableName] := by
  obtain ⟨ce, ae, conn, txr, cpe, cme, rbe, cnte⟩ := env
  obtain ⟨dc⟩ := txr
  cases ce <;> cases ae <;> rcases dc with _ | ⟨_ | ci⟩ <;>
    try cases ci
  all_goals
    cases cpe <;> cases cme <;> cases rbe <;> cases cnte <;>
      simp_all [demonstrateTransactionCommitCopyFrom, Tx.Raw, performCopyFrom,
        countRows, verifyTxCommit]

/-- Helper: scenario 3 only issues copy requests on the `name` and
`data` columns. -/
theorem scenario3_copy_columns (env : ScenEnv) (db : DBState)
    (req : CopyRequest)
    (h : Event.copyReq req ∈ (demonstrateTransactionRollbackCopyFrom env db).events) :
    req.columns = ["name", "data"] ∧ req.table = [tableName] := by
  obtain ⟨ce, ae, conn, txr, cpe, cme, rbe, cnte⟩ := env
  obtain ⟨dc⟩ := txr
  cases ce <;> cases ae <;> rcases dc with _ | ⟨_ | ci⟩ <;>
    try cases ci
  all_goals
    cases cpe <;> cases rbe <;> cases cnte <;>
      simp_all [demonstrateTransactionRollbackCopyFrom, Tx.Raw, performCopyFrom,
        countRows, verifyTxRollback]

/-- Helper: every event of a run is one of the fixed `main` log lines or
an event of one of the three scenarios, each started from the database
state its predecessor left. -/
theorem main_events_decomp (env : RunEnv) (db0 : DBState) (ev : Event)
    (h : ev ∈ (main env db0).events) :
    ev = .logMsg "=== Go sql.Tx Raw Connection Access Example ===" ∨
    ev = .logMsg "✓ Successfully connected to PostgreSQL" ∨
    ev = .logMsg "=== Example Finished ===" ∨
    ev ∈ (demonstrateNoTransactionCopyFrom env.env1 db0).events ∨
    ev ∈ (demonstrateTransactionCommitCopyFrom env.env2
          (demonstrateNoTransactionCopyFrom env.env1 db0).db).events ∨
    ev ∈ (demonstrateTransactionRollbackCopyFrom env.env3
          (demonstrateTransactionCommitCopyFrom env.env2
            (demonstrateNoTransactionCopyFrom env.env1 db0).db).db).events := by
  obtain ⟨cerr, e1, e2, e3⟩ := env
  cases cerr with
  | some e =>
    simp only [main, List.mem_cons, List.not_mem_nil, or_false] at h
    tauto
  | none =>
    simp only [main] at h
    cases ho1 : (demonstrateNoTransactionCopyFrom e1 db0).outcome with
    | fatalExit m =>
      rw [ho1] at h
      simp only [List.mem_append, List.mem_cons, List.not_mem_nil, or_false,
        false_or] at h
      tauto
    | returned =>
      rw [ho1] at h
      dsimp only at h
      cases ho2 : (demonstrateTransactionCommitCopyFrom e2
          (demonstrateNoTransactionCopyFrom e1 db0).db).outcome with
      | fatalExit m =>
        rw [ho2] at h
        simp only [List.mem_append, List.mem_cons, List.not_mem_nil, or_false,
          false_or] at h
        tauto
      | returned =>
        rw [ho2] at h
        dsimp only at h
        cases ho3 : (demonstrateTransactionRollbackCopyFrom e3
            (demonstrateTransactionCommitCopyFrom e2
              (demonstrateNoTransactionCopyFrom e1 db0).db).db).outcome with
        | fatalExit m =>
          rw [ho3] at h
          simp only [List.mem_append, List.mem_cons, List.not_mem_nil, or_false,
            false_or] at h
          tauto
        | returned =>
          rw [ho3] at h
          simp only [List.mem_append, List.mem_cons, List.not_mem_nil, or_false,
            false_or] at h
          tauto

/-- Claim C8: every bulk-copy request issued in any run of the program —
in all three scenarios, whatever the environment — targets exactly the
`name` and `data` columns, in that order, of the `items` table. -/
theorem copy_columns_name_data (env : RunEnv) (db0 : DBState)
    (req : CopyRequest) (h : Event.copyReq req ∈ (main env db0).events) :
    req.columns = ["name", "data"] ∧ req.table = [tableName] := by
  rcases main_events_decomp env db0 _ h with h' | h' | h' | h' | h' | h'
  · exact absurd h' (by simp)
  · exact absurd h' (by simp)
  · exact absurd h' (by simp)
  · exact scenario1_copy_columns _ _ req h'
  · exact scenario2_copy_columns _ _ req h'
  · exact scenario3_copy_columns _ _ req h'

/-- Witness for C8: the copy request of the nominal no-transaction
scenario, inside the nominal end-to-end run. -/
theorem copy_columns_name_data_witness :
    Event.copyReq ⟨[tableName], ["name", "data"], generateSampleData 10 "NoTx"⟩
        ∈ (main nominalRun ⟨[]⟩).events ∧
    (⟨[tableName], ["name", "data"], generateSampleData 10 "NoTx"⟩ :
        CopyRequest).columns = ["name", "data"] := by
  have hmem : Event.copyReq
      ⟨[tableName], ["name", "data"], generateSampleData 10 "NoTx"⟩
        ∈ (main nominalRun ⟨[]⟩).events := by decide
  exact ⟨hmem, (copy_columns_name_data nominalRun ⟨[]⟩ _ hmem).1⟩

/-- Claim C10: a mismatch between the counted row total and the expected
count is only logged. The verification tails emit log messages only, the
mismatch error among them exactly when the counts differ; each scenario
returns normally once the count query succeeds, whatever value it
produced; and a run whose three scenarios all return normally completes
with the zero-exit outcome. -/
theorem count_mismatch_only_logged (env : ScenEnv) (renv : RunEnv)
    (db db0 : DBState) (n m : Nat) :
    (n ≠ m →
      Event.logMsg "✗ ERROR: Row count mismatch for non-transactional CopyFrom!"
        ∈ verifyNoTx n m ∧
      Event.logMsg "✗ ERROR: Row count mismatch for transactional CopyFrom!"
        ∈ verifyTxCommit n m) ∧
    (n ≠ 0 →
      Event.logMsg "✗ ERROR: Data was persisted despite rollback!"
        ∈ verifyTxRollback n) ∧
    (∀ ev ∈ verifyNoTx n m, ∃ s, ev = .logMsg s) ∧
    (∀ ev ∈ verifyTxCommit n m, ∃ s, ev = .logMsg s) ∧
    (∀ ev ∈ verifyTxRollback n, ∃ s, ev = .logMsg s) ∧
    (env.clearErr = none → env.acquireErr = none → env.countErr = none →
      (performCopyFrom env.conn (generateSampleData 10 "NoTx")
        "non-transactional" env.copyErr).2 = none →
      (demonstrateNoTransactionCopyFrom env db).outcome = .returned) ∧
    (env.clearErr = none → env.acquireErr = none → env.countErr = none →
      env.commitErr = none →
      (Tx.Raw env.txRepr fun d => performCopyFrom d
        (generateSampleData 15 "TxCommit") "transactional (commit)"
        env.copyErr).2 = none →
      (demonstrateTransactionCommitCopyFrom env db).outcome = .returned) ∧
    (env.clearErr = none → env.acquireErr = none → env.countErr = none →
      env.rollbackErr = none →
      (Tx.Raw env.txRepr fun d => performCopyFrom d
        (generateSampleData 20 "TxRollback") "transactional (rollback)"
        env.copyErr).2 = none →
      (demonstrateTransactionRollbackCopyFrom env db).outcome = .returned) ∧
    (renv.connectErr = none →
      (demonstrateNoTransactionCopyFrom renv.env1 db0).outcome = .returned →
      (demonstrateTransactionCommitCopyFrom renv.env2
        (demonstrateNoTransactionCopyFrom renv.env1 db0).db).outcome = .returned →
      (demonstrateTransactionRollbackCopyFrom renv.env3
        (demonstrateTransactionCommitCopyFrom renv.env2
          (demonstrateNoTransactionCopyFrom renv.env1 db0).db).db).outcome =
        .returned →
      (main renv db0).outcome = .returned) := by
  obtain ⟨ce, ae, conn, txr, cpe, cme, rbe, cnte⟩ := env
  obtain ⟨cerr, e1, e2, e3⟩ := renv
  refine ⟨?_, ?_, ?_, ?_, ?_, ?_, ?_, ?_, ?_⟩
  · intro hne
    constructor <;> simp [verifyNoTx, verifyTxCommit, hne]
  · intro hne
    simp [verifyTxRollback, hne]
  · intro ev hev
    rcases List.mem_append.mp hev with hl | hr
    · exact ⟨_, List.mem_singleton.mp hl⟩
    · revert hr
      split <;> intro hr <;> simp_all
  · intro ev hev
    rcases List.mem_append.mp hev with hl | hr
    · exact ⟨_, List.mem_singleton.mp hl⟩
    · revert hr
      split <;> intro hr <;> simp_all
  · intro ev hev
    rcases List.mem_append.mp hev with hl | hr
    · exact ⟨_, List.mem_singleton.mp hl⟩
    · revert hr
      split <;> intro hr <;> simp_all
  · intro h1 h2 h3 hcp
    simp only at h1 h2 h3 hcp
    subst h1 h2 h3
    simp [demonstrateNoTransactionCopyFrom, hcp, countRows]
  · intro h1 h2 h3 h4 hcp
    simp only at h1 h2 h3 h4 hcp
    subst h1 h2 h3 h4
    simp [demonstrateTransactionCommitCopyFrom, hcp, countRows]
  · intro h1 h2 h3 h4 hcp
    simp only at h1 h2 h3 h4 hcp
    subst h1 h2 h3 h4
    simp [demonstrateTransactionRollbackCopyFrom, hcp, countRows]
  · intro hconn ho1 ho2 ho3
    simp only at hconn ho1 ho2 ho3
    subst hconn
    simp only [main]
    rw [ho1, ho2, ho3]

/-- Witness for C10: mismatching counts 5 vs 10 (and 5 vs 0), the
nominal scenarios, and the nominal run. -/
theorem count_mismatch_only_logged_witness :
    (Event.logMsg "✗ ERROR: Row count mismatch for non-transactional CopyFrom!"
      ∈ verifyNoTx 5 10 ∧
     Event.logMsg "✗ ERROR: Row count mismatch for transactional CopyFrom!"
      ∈ verifyTxCommit 5 10) ∧
    Event.logMsg "✗ ERROR: Data was persisted despite rollback!"
      ∈ verifyTxRollback 5 ∧
    (demonstrateNoTransactionCopyFrom nominalEnv ⟨[]⟩).outcome = .returned ∧
    (demonstrateTransactionCommitCopyFrom nominalEnv ⟨[]⟩).outcome = .returned ∧
    (demonstrateTransactionRollbackCopyFrom nominalEnv ⟨[]⟩).outcome = .returned ∧
    (main nominalRun ⟨[]⟩).outcome = .returned := by
  have h := count_mismatch_only_logged nominalEnv nominalRun ⟨[]⟩ ⟨[]⟩ 5 10
  refine ⟨h.1 (by decide), (h.2.1 (by decide)), ?_, ?_, ?_, ?_⟩
  · exact h.2.2.2.2.2.1 rfl rfl rfl (by decide)
  · exact h.2.2.2.2.2.2.1 rfl rfl rfl rfl (by decide)
  · exact h.2.2.2.2.2.2.2.1 rfl rfl rfl rfl (by decide)
  · exact h.2.2.2.2.2.2.2.2 rfl (by decide) (by decide) (by decide)

/-- Run environment in which scenario 2's bulk transfer fails and
everything else is nominal. -/
def c1Env : RunEnv :=
  ⟨none, nominalEnv, { nominalEnv with copyErr := some "copy failure" },
   nominalEnv⟩

/-- Claim C1 counterexample: with a failing bulk transfer in the commit
scenario (an unexpected error at the copy step, visibly logged), the run
is not terminated — the rollback scenario still executes and the whole
run finishes with the zero-exit outcome, refuting that any unexpected
error at any step is fatal to the whole run. -/
theorem fatal_claim_counterexample :
    Event.logMsg
        "✗ CopyFrom failed, rolling back: pgxConn.CopyFrom failed: copy failure"
      ∈ (main c1Env ⟨[]⟩).events ∧
    Event.logMsg "--- Scenario 3: CopyFrom WITH transaction (ROLLBACK) ---"
      ∈ (main c1Env ⟨[]⟩).events ∧
    (main c1Env ⟨[]⟩).outcome = .returned := by
  decide

/-- Helper: the rollback scenario always logs its banner line first,
whatever the environment and database state. -/
theorem scenario3_banner (env : ScenEnv) (db : DBState) :
    Event.logMsg "--- Scenario 3: CopyFrom WITH transaction (ROLLBACK) ---"
      ∈ (demonstrateTransactionRollbackCopyFrom env db).events := by
  obtain ⟨ce, ae, conn, txr, cpe, cme, rbe, cnte⟩ := env
  obtain ⟨dc⟩ := txr
  cases ce <;> cases ae <;> rcases dc with _ | ⟨_ | ci⟩ <;> try cases ci
  all_goals
    cases cpe <;> cases rbe <;> cases cnte <;>
      simp [demonstrateTransactionRollbackCopyFrom, Tx.Raw, performCopyFrom,
        countRows]

/-- Claim C1 as amended: an unexpected error at any step is fatal and
terminates the whole run with no retry — connect failure, table-clear
failure in any scenario, connection or transaction acquisition failure,
any raw/copy error in the non-transactional scenario, commit failure,
final-rollback failure, count failure, and a scenario that dies kills
the run — with one exception: an error surfaced by the reflective
raw-access/bulk-copy step of a transactional scenario is logged, the
transaction is rolled back best-effort, and only that scenario aborts;
the remaining scenarios still execute. -/
theorem error_fatality_amended (env : ScenEnv) (renv : RunEnv)
    (db db0 : DBState) (e : String) :
    (env.clearErr = some e →
      (demonstrateNoTransactionCopyFrom env db).outcome =
        .fatalExit ("Failed to clear table: " ++ e) ∧
      (demonstrateTransactionCommitCopyFrom env db).outcome =
        .fatalExit ("Failed to clear table: " ++ e) ∧
      (demonstrateTransactionRollbackCopyFrom env db).outcome =
        .fatalExit ("Failed to clear table: " ++ e)) ∧
    (env.clearErr = none → env.acquireErr = some e →
      (demonstrateNoTransactionCopyFrom env db).outcome =
        .fatalExit ("db.Conn failed: " ++ e) ∧
      (demonstrateTransactionCommitCopyFrom env db).outcome =
        .fatalExit ("Failed to begin transaction (commit scenario): " ++ e) ∧
      (demonstrateTransactionRollbackCopyFrom env db).outcome =
        .fatalExit ("Failed to begin transaction (rollback scenario): " ++ e)) ∧
    (env.clearErr = none → env.acquireErr = none →
      (performCopyFrom env.conn (generateSampleData 10 "NoTx")
        "non-transactional" env.copyErr).2 = some e →
      (demonstrateNoTransactionCopyFrom env db).outcome =
        .fatalExit ("sqlDBConn.Raw failed: " ++ e)) ∧
    (env.clearErr = none → env.acquireErr = none →
      (Tx.Raw env.txRepr fun d => performCopyFrom d
        (generateSampleData 15 "TxCommit") "transactional (commit)"
        env.copyErr).2 = none →
      env.commitErr = some e →
      (demonstrateTransactionCommitCopyFrom env db).outcome =
        .fatalExit ("Failed to commit transaction: " ++ e)) ∧
    (env.clearErr = none → env.acquireErr = none →
      (Tx.Raw env.txRepr fun d => performCopyFrom d
        (generateSampleData 20 "TxRollback") "transactional (rollback)"
        env.copyErr).2 = none →
      env.rollbackErr = some e →
      (demonstrateTransactionRollbackCopyFrom env db).outcome =
        .fatalExit ("Failed to rollback transaction: " ++ e)) ∧
    (env.clearErr = none → env.acquireErr = none → env.countErr = some e →
      (performCopyFrom env.conn (generateSampleData 10 "NoTx")
        "non-transactional" env.copyErr).2 = none →
      (demonstrateNoTransactionCopyFrom env db).outcome =
        .fatalExit ("Failed to count rows (no-tx): "
          ++ ("QueryRowContext for COUNT failed: " ++ e))) ∧
    (env.clearErr = none → env.acquireErr = none → env.countErr = some e →
      env.commitErr = none →
      (Tx.Raw env.txRepr fun d => performCopyFrom d
        (generateSampleData 15 "TxCommit") "transactional (commit)"
        env.copyErr).2 = none →
      (demonstrateTransactionCommitCopyFrom env db).outcome =
        .fatalExit ("Failed to count rows (tx-commit): "
          ++ ("QueryRowContext for COUNT failed: " ++ e))) ∧
    (env.clearErr = none → env.acquireErr = none → env.countErr = some e →
      env.rollbackErr = none →
      (Tx.Raw env.txRepr fun d => performCopyFrom d
        (generateSampleData 20 "TxRollback") "transactional (rollback)"
        env.copyErr).2 = none →
      (demonstrateTransactionRollbackCopyFrom env db).outcome =
        .fatalExit ("Failed to count rows (tx-rollback): "
          ++ ("QueryRowContext for COUNT failed: " ++ e))) ∧
    (env.clearErr = none → env.acquireErr = none →
      (Tx.Raw env.txRepr fun d => performCopyFrom d
        (generateSampleData 15 "TxCommit") "transactional (commit)"
        env.copyErr).2 = some e →
      (demonstrateTransactionCommitCopyFrom env db).outcome = .returned ∧
      Event.rollbackInvoked env.rollbackErr
        ∈ (demonstrateTransactionCommitCopyFrom env db).events) ∧
    (env.clearErr = none → env.acquireErr = none →
      (Tx.Raw env.txRepr fun d => performCopyFrom d
        (generateSampleData 20 "TxRollback") "transactional (rollback)"
        env.copyErr).2 = some e →
      (demonstrateTransactionRollbackCopyFrom env db).outcome = .returned ∧
      Event.rollbackInvoked env.rollbackErr
        ∈ (demonstrateTransactionRollbackCopyFrom env db).events) ∧
    (renv.connectErr = some e →
      (main renv db0).outcome = .fatalExit ("Failed to connect to database: " ++ e)) ∧
    (renv.connectErr = none →
      (demonstrateNoTransactionCopyFrom renv.env1 db0).outcome = .fatalExit e →
      (main renv db0).outcome = .fatalExit e) ∧
    (renv.connectErr = none →
      (demonstrateNoTransactionCopyFrom renv.env1 db0).outcome = .returned →
      (demonstrateTransactionCommitCopyFrom renv.env2
        (demonstrateNoTransactionCopyFrom renv.env1 db0).db).outcome = .fatalExit e →
      (main renv db0).outcome = .fatalExit e) ∧
    (renv.connectErr = none →
      (demonstrateNoTransactionCopyFrom renv.env1 db0).outcome = .returned →
      (demonstrateTransactionCommitCopyFrom renv.env2
        (demonstrateNoTransactionCopyFrom renv.env1 db0).db).outcome = .returned →
      Event.logMsg "--- Scenario 3: CopyFrom WITH transaction (ROLLBACK) ---"
        ∈ (main renv db0).events) := by
  obtain ⟨ce, ae, conn, txr, cpe, cme, rbe, cnte⟩ := env
  obtain ⟨cerr, e1, e2, e3⟩ := renv
  refine ⟨?_, ?_, ?_, ?_, ?_, ?_, ?_, ?_, ?_, ?_, ?_, ?_, ?_, ?_⟩
  · intro h1
    simp only at h1
    subst h1
    refine ⟨rfl, rfl, rfl⟩
  · intro h1 h2
    simp only at h1 h2
    subst h1 h2
    refine ⟨rfl, rfl, rfl⟩
  · intro h1 h2 hcp
    simp only at h1 h2 hcp
    subst h1 h2
    simp [demonstrateNoTransactionCopyFrom, hcp]
  · intro h1 h2 hcp h3
    simp only at h1 h2 h3 hcp
    subst h1 h2 h3
    simp [demonstrateTransactionCommitCopyFrom, hcp]
  · intro h1 h2 hcp h3
    simp only at h1 h2 h3 hcp
    subst h1 h2 h3
    simp [demonstrateTransactionRollbackCopyFrom, hcp]
  · intro h1 h2 h3 hcp
    simp only at h1 h2 h3 hcp
    subst h1 h2 h3
    simp [demonstrateNoTransactionCopyFrom, hcp, countRows]
  · intro h1 h2 h3 h4 hcp
    simp only at h1 h2 h3 h4 hcp
    subst h1 h2 h3 h4
    simp [demonstrateTransactionCommitCopyFrom, hcp, countRows]
  · intro h1 h2 h3 h4 hcp
    simp only at h1 h2 h3 h4 hcp
    subst h1 h2 h3 h4
    simp [demonstrateTransactionRollbackCopyFrom, hcp, countRows]
  · intro h1 h2 hcp
    simp only at h1 h2 hcp
    subst h1 h2
    simp only [demonstrateTransactionCommitCopyFrom, hcp]
    cases rbe <;> simp
  · intro h1 h2 hcp
    simp only at h1 h2 hcp
    subst h1 h2
    simp only [demonstrateTransactionRollbackCopyFrom, hcp]
    cases rbe <;> simp
  · intro h1
    simp only at h1
    subst h1
    rfl
  · intro h1 ho
    simp only at h1 ho
    subst h1
    simp only [main]
    rw [ho]
  · intro h1 ho1 ho2
    simp only at h1 ho1 ho2
    subst h1
    simp only [main]
    rw [ho1, ho2]
  · intro h1 ho1 ho2
    simp only at h1 ho1 ho2
    subst h1
    simp only [main]
    rw [ho1, ho2]
    cases ho3 : (demonstrateTransactionRollbackCopyFrom e3
        (demonstrateTransactionCommitCopyFrom e2
          (demonstrateNoTransactionCopyFrom e1 db0).db).db).outcome <;>
      simp [List.mem_append, scenario3_banner]

/-- Witness for C1 (amended) at concrete failing environments: a clear
failure is fatal to scenario 1, a commit failure is fatal to scenario 2,
a copy failure in scenario 2 is not fatal and still invokes rollback,
and after two returning scenarios the third one's banner appears in the
run's events. -/
theorem error_fatality_amended_witness :
    (demonstrateNoTransactionCopyFrom { nominalEnv with clearErr := some "x" }
      ⟨[]⟩).outcome = .fatalExit "Failed to clear table: x" ∧
    (demonstrateTransactionCommitCopyFrom { nominalEnv with commitErr := some "x" }
      ⟨[]⟩).outcome = .fatalExit "Failed to commit transaction: x" ∧
    (demonstrateTransactionCommitCopyFrom { nominalEnv with copyErr := some "boom" }
      ⟨[]⟩).outcome = .returned ∧
    Event.rollbackInvoked none
      ∈ (demonstrateTransactionCommitCopyFrom { nominalEnv with copyErr := some "boom" }
        ⟨[]⟩).events ∧
    Event.logMsg "--- Scenario 3: CopyFrom WITH transaction (ROLLBACK) ---"
      ∈ (main c1Env ⟨[]⟩).events := by
  refine ⟨?_, ?_, ?_, ?_, ?_⟩
  · exact ((error_fatality_amended { nominalEnv with clearErr := some "x" }
      nominalRun ⟨[]⟩ ⟨[]⟩ "x").1 rfl).1
  · exact (error_fatality_amended { nominalEnv with commitErr := some "x" }
      nominalRun ⟨[]⟩ ⟨[]⟩ "x").2.2.2.1 rfl rfl (by decide) rfl
  · exact ((error_fatality_amended { nominalEnv with copyErr := some "boom" }
      nominalRun ⟨[]⟩ ⟨[]⟩ "pgxConn.CopyFrom failed: boom").2.2.2.2.2.2.2.2.1
      rfl rfl (by decide)).1
  · exact ((error_fatality_amended { nominalEnv with copyErr := some "boom" }
      nominalRun ⟨[]⟩ ⟨[]⟩ "pgxConn.CopyFrom failed: boom").2.2.2.2.2.2.2.2.1
      rfl rfl (by decide)).2
  · exact (error_fatality_amended nominalEnv c1Env ⟨[]⟩ ⟨[]⟩
      "unused").2.2.2.2.2.2.2.2.2.2.2.2.2 rfl (by decide) (by decide)

end TxRaw
